import Mathlib

/-
Verification of the cache-api core (src/services/cacheService.js and
src/models/cacheItem.js) as a shallow embedding.

Modelling choices, following the source:

* A stored record (sequelize model CacheItem, src/models/cacheItem.js) has a
  string primary key, a JSON-serializable value and a timestamp.  The value
  column is TEXT with a getter JSON.parse and a setter JSON.stringify; per
  ECMA-262, JSON.parse (JSON.stringify v) = v for every value built from
  null, booleans, numbers, strings, arrays and plain objects, so the store is
  modelled as holding the structured value `Json` directly (the text codec is
  an external round-tripping boundary, spec section 6).  JS numbers are
  modelled as integers.
* The durable store (sequelize + SQLite, an external collaborator) is
  modelled as a list of records; its contract operations (count, findByPk,
  create, update, destroy with a where-clause, findOne ordered by timestamp)
  are implemented concretely on the list.
* Timestamps are milliseconds since the epoch, as `Int` (Date.now()); the
  current time is passed explicitly to the operations that read the clock.
* JS exceptions are `Except String`: every error in the service is a plain
  `Error` distinguished only by its message string, and the catch blocks
  match on / rewrap those strings, so `String` is the faithful error type.
* `undefined` versus a present value is `Option Json` (`none` = undefined;
  `Json.null` is the JS value null, which is defined).
* A falsy-key check `if (!key)` on a string key is `key = ""` (the only
  falsy string); non-string keys are out of scope of the claims.
-/

/-- JSON-serializable JS values, as stored by the cache (numbers restricted
to integers). -/
inductive Json where
  | null : Json
  | bool : Bool → Json
  | num : Int → Json
  | str : String → Json
  | arr : List Json → Json
  | obj : List (String × Json) → Json

/-- One row of the CacheItem table (src/models/cacheItem.js): primary key,
deserialized value, timestamp of last write. -/
structure CacheRecord where
  key : String
  value : Json
  timestamp : Int

/-- The durable item store: the CacheItem table contents. -/
structure Store where
  items : List CacheRecord

/-- The empty store. -/
def Store.empty : Store := ⟨[]⟩

/-- CacheItem.count(): number of rows. -/
def Store.count (s : Store) : Nat := s.items.length

/-- CacheItem.findByPk(key): the row whose primary key equals `key`. -/
def Store.findByPk (s : Store) (key : String) : Option CacheRecord :=
  s.items.find? (fun r => r.key == key)

/-- existingItem.update({value, timestamp}): replace value and timestamp of
the row(s) whose key matches, in place. -/
def Store.updateItem (s : Store) (key : String) (v : Json) (now : Int) : Store :=
  ⟨s.items.map (fun r =>
    if r.key == key then { r with value := v, timestamp := now } else r)⟩

/-- CacheItem.create({key, value, timestamp}): insert a new row. -/
def Store.createItem (s : Store) (key : String) (v : Json) (now : Int) : Store :=
  ⟨s.items ++ [⟨key, v, now⟩]⟩

/-- CacheItem.destroy({where: {key}}): delete the rows whose key matches and
return the new table together with the number of rows deleted. -/
def Store.destroyByKey (s : Store) (key : String) : Store × Nat :=
  (⟨s.items.filter (fun r => !(r.key == key))⟩,
   s.items.countP (fun r => r.key == key))

/-- CacheItem.destroy({where: {timestamp: {Op.lt: cutoff}}}): delete the rows
with timestamp strictly below the cutoff, returning the count deleted. -/
def Store.destroyOlderThan (s : Store) (cutoff : Int) : Store × Nat :=
  (⟨s.items.filter (fun r => !(decide (r.timestamp < cutoff)))⟩,
   s.items.countP (fun r => decide (r.timestamp < cutoff)))

/-- CacheItem.count({where: {key}}): number of rows whose key matches. -/
def Store.countByKey (s : Store) (key : String) : Nat :=
  s.items.countP (fun r => r.key == key)

/-- CacheItem.findOne({order: [[timestamp, ASC]]}): a row of minimal
timestamp (none if the table is empty). -/
def Store.findOneByTimestampAsc (s : Store) : Option CacheRecord :=
  s.items.foldl (fun acc r =>
    match acc with
    | none => some r
    | some b => if r.timestamp < b.timestamp then some r else some b) none

/-- CacheItem.findOne({order: [[timestamp, DESC]]}): a row of maximal
timestamp (none if the table is empty). -/
def Store.findOneByTimestampDesc (s : Store) : Option CacheRecord :=
  s.items.foldl (fun acc r =>
    match acc with
    | none => some r
    | some b => if b.timestamp < r.timestamp then some r else some b) none

/-- The object returned by getStats.  oldest/newest are `none` when the JS
code returns null (the timestamp field of a found row is a Date object,
always truthy, so `oldest?.timestamp || null` is null exactly when no row
was found). -/
structure CacheStats where
  totalItems : Nat
  oldestItemTimestamp : Option Int
  newestItemTimestamp : Option Int
  maxSize : Nat
  remainingSpace : Int

/-- Body of the try block of CacheService.set: validation, the capacity
admission check, then update-or-create. -/
def CacheService.setInner (maxSize : Nat) (s : Store) (now : Int)
    (key : String) (value : Option Json) : Except String Store :=
  if key = "" then .error "Key is required"
  else match value with
  | none => .error "Value is required"
  | some v =>
    let count := s.count
    let existingItem := s.findByPk key
    if maxSize ≤ count ∧ existingItem.isNone then .error "Cache is full"
    else match existingItem with
      | some _ => .ok (s.updateItem key v now)
      | none => .ok (s.createItem key v now)

/-- Catch block of CacheService.set: rethrow the cache-full error unchanged,
wrap every other error message in the generic failure prefix. -/
def CacheService.setWrap (r : Except String Store) : Except String Store :=
  match r with
  | .ok s => .ok s
  | .error msg =>
    if msg = "Cache is full" then .error msg
    else .error ("Failed to set cache value: " ++ msg)

/-- CacheService.set(key, value): returns the updated store on success (the
JS method returns true and mutates the shared store). -/
def CacheService.set (maxSize : Nat) (s : Store) (now : Int)
    (key : String) (value : Option Json) : Except String Store :=
  CacheService.setWrap (CacheService.setInner maxSize s now key value)

/-- CacheService.get(key): `item ? item.value : null` — the stored value if
the row exists, the JS value null otherwise.  The catch block wraps the
validation error in the generic failure prefix. -/
def CacheService.get (s : Store) (key : String) : Except String Json :=
  if key = "" then .error ("Failed to get cache value: " ++ "Key is required")
  else .ok (match s.findByPk key with
    | some item => item.value
    | none => Json.null)

/-- CacheService.delete(key): destroy by key, return the new store and
whether the deleted count was positive. -/
def CacheService.delete (s : Store) (key : String) :
    Except String (Store × Bool) :=
  if key = "" then .error ("Failed to delete cache value: " ++ "Key is required")
  else
    let d := s.destroyByKey key
    .ok (d.1, decide (0 < d.2))

/-- CacheService.size(): current row count. -/
def CacheService.size (s : Store) : Nat := s.count

/-- CacheService.clear(): destroy with an empty where-clause removes every
row. -/
def CacheService.clear (_ : Store) : Store := Store.empty

/-- CacheService.getStats(): count, oldest and newest timestamps, capacity
and Math.max(0, maxSize - total). -/
def CacheService.getStats (maxSize : Nat) (s : Store) : CacheStats :=
  { totalItems := s.count
    oldestItemTimestamp := (s.findOneByTimestampAsc).map (fun r => r.timestamp)
    newestItemTimestamp := (s.findOneByTimestampDesc).map (fun r => r.timestamp)
    maxSize := maxSize
    remainingSpace := max 0 ((maxSize : Int) - (s.count : Int)) }

/-- CacheService.cleanupOldEntries(maxAgeMinutes): validate the age, compute
cutoff = Date.now() - maxAgeMinutes * 60000, destroy the strictly older rows
and return the deleted count; the catch block wraps the validation error in
the generic failure prefix. -/
def CacheService.cleanupOldEntries (s : Store) (now maxAgeMinutes : Int) :
    Except String (Store × Nat) :=
  if maxAgeMinutes ≤ 0 then
    .error ("Failed to cleanup old entries: " ++ "Max age must be positive")
  else
    let cutoffTime := now - maxAgeMinutes * 60000
    .ok (s.destroyOlderThan cutoffTime)

/-- CacheService.has(key): count of rows with this key is positive. -/
def CacheService.has (s : Store) (key : String) : Except String Bool :=
  if key = "" then .error ("Failed to check key existence: " ++ "Key is required")
  else .ok (decide (0 < s.countByKey key))

/-- One cache operation of the public interface, with the clock reading it
observes. -/
inductive Op where
  | set : Int → String → Option Json → Op
  | get : String → Op
  | delete : String → Op
  | has : String → Op
  | size : Op
  | clear : Op
  | cleanup : Int → Int → Op
  | stats : Op

/-- The store after one operation: mutating operations that succeed install
their result; a failed operation leaves the store as it was; queries do not
touch it. -/
def applyOp (maxSize : Nat) (s : Store) : Op → Store
  | .set now key v =>
    match CacheService.set maxSize s now key v with
    | .ok s' => s'
    | .error _ => s
  | .get _ => s
  | .delete key =>
    match CacheService.delete s key with
    | .ok d => d.1
    | .error _ => s
  | .has _ => s
  | .size => s
  | .clear => CacheService.clear s
  | .cleanup now maxAge =>
    match CacheService.cleanupOldEntries s now maxAge with
    | .ok d => d.1
    | .error _ => s
  | .stats => s

/-- The store reached by a sequence of operations from the empty store. -/
def runOps (maxSize : Nat) (ops : List Op) : Store :=
  ops.foldl (applyOp maxSize) Store.empty

/- Helper lemmas about the store operations. -/

lemma Store.count_updateItem (s : Store) (key : String) (v : Json) (now : Int) :
    (s.updateItem key v now).count = s.count := by
  simp [Store.updateItem, Store.count]

lemma find?_map_update (key : String) (v : Json) (now : Int) :
    ∀ (l : List CacheRecord) (r : CacheRecord),
      l.find? (fun x => x.key == key) = some r →
      (l.map (fun x =>
        if x.key == key then { x with value := v, timestamp := now } else x)).find?
          (fun x => x.key == key) = some { r with value := v, timestamp := now }
  | [], r => by simp
  | a :: l, r => by
    intro hfind
    cases h : a.key == key with
    | true =>
      simp only [List.find?, h] at hfind
      cases hfind
      simp [List.find?, h]
    | false =>
      simp only [List.find?, h] at hfind
      have ih := find?_map_update key v now l r hfind
      rw [List.map_cons, if_neg (by simp [h])]
      simp only [List.find?, h]
      exact ih

lemma Store.findByPk_updateItem (s : Store) (key : String) (v : Json) (now : Int)
    (r : CacheRecord) (h : s.findByPk key = some r) :
    (s.updateItem key v now).findByPk key =
      some { r with value := v, timestamp := now } :=
  find?_map_update key v now s.items r h

lemma Store.findByPk_createItem (s : Store) (key : String) (v : Json) (now : Int)
    (h : s.findByPk key = none) :
    (s.createItem key v now).findByPk key = some ⟨key, v, now⟩ := by
  unfold Store.findByPk at h ⊢
  unfold Store.createItem
  rw [List.find?_append, h]
  simp [List.find?]

lemma CacheService.set_ok_cases (maxSize : Nat) (s : Store) (now : Int)
    (key : String) (value : Option Json) (s' : Store)
    (h : CacheService.set maxSize s now key value = .ok s') :
    ∃ v, value = some v ∧ key ≠ "" ∧
      ((∃ r, s.findByPk key = some r ∧ s' = s.updateItem key v now) ∨
       (s.findByPk key = none ∧ s.count < maxSize ∧ s' = s.createItem key v now)) := by
  unfold CacheService.set CacheService.setWrap CacheService.setInner at h
  by_cases hk : key = ""
  · simp [hk] at h
  rcases value with _ | v
  · simp [hk] at h
  refine ⟨v, rfl, hk, ?_⟩
  simp only [hk, if_neg, not_false_iff] at h
  by_cases hg : maxSize ≤ s.count ∧ (s.findByPk key).isNone
  · simp [hg] at h
  simp only [hg, if_neg, not_false_iff] at h
  cases hfind : s.findByPk key with
  | some r =>
    rw [hfind] at h
    simp at h
    exact Or.inl ⟨r, rfl, h.symm⟩
  | none =>
    rw [hfind] at h
    simp at h
    have hc : s.count < maxSize := by
      by_contra hc
      exact hg ⟨Nat.le_of_not_lt hc, by simp [hfind]⟩
    exact Or.inr ⟨rfl, hc, h.symm⟩

lemma Store.countByKey_pos_of_findByPk (s : Store) (key : String)
    (r : CacheRecord) (h : s.findByPk key = some r) : 0 < s.countByKey key := by
  unfold Store.findByPk at h
  unfold Store.countByKey
  exact List.countP_pos_iff.mpr
    ⟨r, List.mem_of_find?_eq_some h, @List.find?_some _ (fun x => x.key == key) r _ h⟩

lemma Store.countByKey_eq_zero_of_findByPk (s : Store) (key : String)
    (h : s.findByPk key = none) : s.countByKey key = 0 := by
  unfold Store.findByPk at h
  unfold Store.countByKey
  exact List.countP_eq_zero.mpr (List.find?_eq_none.mp h)

/-- Capacity invariant on the store: the primary keys are pairwise distinct
and there are at most `maxSize` rows. -/
def Store.Inv (maxSize : Nat) (s : Store) : Prop :=
  (s.items.map (fun r => r.key)).Nodup ∧ s.items.length ≤ maxSize

lemma Store.keys_updateItem (s : Store) (key : String) (v : Json) (now : Int) :
    (s.updateItem key v now).items.map (fun r => r.key) =
      s.items.map (fun r => r.key) := by
  unfold Store.updateItem
  rw [List.map_map]
  exact List.map_congr_left (fun a _ => by dsimp only [Function.comp]; split <;> rfl)

lemma Store.inv_filter (maxSize : Nat) (s : Store) (p : CacheRecord → Bool)
    (h : Store.Inv maxSize s) : Store.Inv maxSize ⟨s.items.filter p⟩ :=
  ⟨List.Nodup.sublist (List.Sublist.map _ (List.filter_sublist _)) h.1,
   Nat.le_trans (List.length_filter_le _ _) h.2⟩

lemma Store.inv_updateItem (maxSize : Nat) (s : Store) (key : String)
    (v : Json) (now : Int) (h : Store.Inv maxSize s) :
    Store.Inv maxSize (s.updateItem key v now) := by
  refine ⟨?_, ?_⟩
  · rw [Store.keys_updateItem]
    exact h.1
  · simpa [Store.updateItem] using h.2

lemma Store.inv_createItem (maxSize : Nat) (s : Store) (key : String)
    (v : Json) (now : Int) (h : Store.Inv maxSize s)
    (hfind : s.findByPk key = none) (hc : s.count < maxSize) :
    Store.Inv maxSize (s.createItem key v now) := by
  refine ⟨?_, ?_⟩
  · unfold Store.createItem
    rw [List.map_append, List.nodup_append]
    refine ⟨h.1, List.nodup_singleton _, fun x hx hx2 => ?_⟩
    simp only [List.map_cons, List.map_nil, List.mem_singleton] at hx2
    rcases List.mem_map.mp hx with ⟨r, hr, hkey⟩
    exact List.find?_eq_none.mp hfind r hr (by simp [hkey, hx2])
  · simpa [Store.createItem] using hc

lemma applyOp_inv (maxSize : Nat) (s : Store) (op : Op)
    (h : Store.Inv maxSize s) : Store.Inv maxSize (applyOp maxSize s op) := by
  cases op with
  | set now key v =>
    simp only [applyOp]
    cases hres : CacheService.set maxSize s now key v with
    | error e => exact h
    | ok s' =>
      rcases CacheService.set_ok_cases maxSize s now key v s' hres with
        ⟨w, rfl, hk, ⟨r, hr, rfl⟩ | ⟨hfind, hc, rfl⟩⟩
      · exact Store.inv_updateItem maxSize s key w now h
      · exact Store.inv_createItem maxSize s key w now h hfind hc
  | get key => exact h
  | delete key =>
    simp only [applyOp, CacheService.delete]
    by_cases hk : key = ""
    · simp only [if_pos hk]
      exact h
    · simp only [if_neg hk]
      exact Store.inv_filter maxSize s _ h
  | has key => exact h
  | size => exact h
  | clear => exact ⟨List.nodup_nil, Nat.zero_le _⟩
  | cleanup now maxAge =>
    simp only [applyOp, CacheService.cleanupOldEntries]
    by_cases hm : maxAge ≤ 0
    · simp only [if_pos hm]
      exact h
    · simp only [if_neg hm]
      exact Store.inv_filter maxSize s _ h
  | stats => exact h

lemma inv_foldlOps (maxSize : Nat) :
    ∀ (ops : List Op) (s : Store), Store.Inv maxSize s →
      Store.Inv maxSize (ops.foldl (applyOp maxSize) s)
  | [], _, h => h
  | op :: ops, s, h =>
    inv_foldlOps maxSize ops _ (applyOp_inv maxSize s op h)

/- Helper lemmas relating findOne ordered by timestamp to list min?/max?. -/

lemma foldl_pick_min_ts :
    ∀ (l : List CacheRecord) (b : CacheRecord),
      (l.foldl (fun acc r =>
        match acc with
        | none => some r
        | some c => if r.timestamp < c.timestamp then some r else some c)
        (some b)).map (fun r => r.timestamp)
      = some (l.foldl (fun acc r => min acc r.timestamp) b.timestamp)
  | [], _ => rfl
  | a :: l, b => by
    dsimp only [List.foldl]
    by_cases h : a.timestamp < b.timestamp
    · rw [if_pos h, foldl_pick_min_ts l a,
        show min b.timestamp a.timestamp = a.timestamp from min_eq_right h.le]
    · rw [if_neg h, foldl_pick_min_ts l b,
        show min b.timestamp a.timestamp = b.timestamp from
          min_eq_left (le_of_not_lt h)]

lemma foldl_pick_max_ts :
    ∀ (l : List CacheRecord) (b : CacheRecord),
      (l.foldl (fun acc r =>
        match acc with
        | none => some r
        | some c => if c.timestamp < r.timestamp then some r else some c)
        (some b)).map (fun r => r.timestamp)
      = some (l.foldl (fun acc r => max acc r.timestamp) b.timestamp)
  | [], _ => rfl
  | a :: l, b => by
    dsimp only [List.foldl]
    by_cases h : b.timestamp < a.timestamp
    · rw [if_pos h, foldl_pick_max_ts l a,
        show max b.timestamp a.timestamp = a.timestamp from max_eq_right h.le]
    · rw [if_neg h, foldl_pick_max_ts l b,
        show max b.timestamp a.timestamp = b.timestamp from
          max_eq_left (le_of_not_lt h)]

lemma Store.findOneAsc_timestamp (s : Store) :
    (s.findOneByTimestampAsc).map (fun r => r.timestamp) =
      (s.items.map (fun r => r.timestamp)).min? := by
  unfold Store.findOneByTimestampAsc
  cases hl : s.items with
  | nil => rfl
  | cons a l =>
    rw [show ((a :: l).map (fun r => r.timestamp)).min? =
        some ((l.map (fun r => r.timestamp)).foldl min a.timestamp) from rfl]
    rw [List.foldl_map]
    exact foldl_pick_min_ts l a

lemma Store.findOneDesc_timestamp (s : Store) :
    (s.findOneByTimestampDesc).map (fun r => r.timestamp) =
      (s.items.map (fun r => r.timestamp)).max? := by
  unfold Store.findOneByTimestampDesc
  cases hl : s.items with
  | nil => rfl
  | cons a l =>
    rw [show ((a :: l).map (fun r => r.timestamp)).max? =
        some ((l.map (fun r => r.timestamp)).foldl max a.timestamp) from rfl]
    rw [List.foldl_map]
    exact foldl_pick_max_ts l a

lemma countP_add_length_filter_not (p : CacheRecord → Bool) :
    ∀ l : List CacheRecord,
      l.countP p + (l.filter (fun a => !(p a))).length = l.length := by
  intro l
  induction l with
  | nil => rfl
  | cons a l ih =>
    by_cases h : p a <;>
      simp [List.countP_cons, h, List.filter_cons] <;> omega

/-- C1: on a non-empty key with no existing record, when the current count is
at least maxSize, set fails with the capacity error (the unwrapped message
"Cache is full") and performs no mutation: the store after the operation is
exactly the store before, so size() is unchanged. -/
theorem set_new_key_at_capacity_fails (maxSize : Nat) (s : Store) (now : Int)
    (key : String) (v : Json) (hk : key ≠ "")
    (hfind : s.findByPk key = none) (hcap : maxSize ≤ s.count) :
    CacheService.set maxSize s now key (some v) = .error "Cache is full" ∧
    applyOp maxSize s (Op.set now key (some v)) = s ∧
    (applyOp maxSize s (Op.set now key (some v))).count = s.count := by
  have hset : CacheService.set maxSize s now key (some v) =
      .error "Cache is full" := by
    unfold CacheService.set CacheService.setWrap CacheService.setInner
    simp [hk, hfind, hcap]
  have happ : applyOp maxSize s (Op.set now key (some v)) = s := by
    simp only [applyOp, hset]
  exact ⟨hset, happ, by rw [happ]⟩

/-- Witness for C1: a store of one item at capacity 1 rejects a second
key. -/
theorem set_new_key_at_capacity_fails_witness :
    CacheService.set 1 ⟨[⟨"a", Json.num 1, 0⟩]⟩ 5 "b" (some (Json.num 2)) =
      .error "Cache is full" ∧
    applyOp 1 ⟨[⟨"a", Json.num 1, 0⟩]⟩ (Op.set 5 "b" (some (Json.num 2))) =
      ⟨[⟨"a", Json.num 1, 0⟩]⟩ :=
  ⟨(set_new_key_at_capacity_fails 1 ⟨[⟨"a", Json.num 1, 0⟩]⟩ 5 "b"
      (Json.num 2) (by decide) rfl (by decide)).1,
   (set_new_key_at_capacity_fails 1 ⟨[⟨"a", Json.num 1, 0⟩]⟩ 5 "b"
      (Json.num 2) (by decide) rfl (by decide)).2.1⟩

/-- C2: after any single-threaded sequence of operations starting from the
empty store, the store holds pairwise-distinct keys and at most maxSize of
them. -/
theorem capacity_invariant_sequences (maxSize : Nat) (ops : List Op) :
    ((runOps maxSize ops).items.map (fun r => r.key)).Nodup ∧
    (runOps maxSize ops).count ≤ maxSize :=
  inv_foldlOps maxSize ops Store.empty ⟨List.nodup_nil, Nat.zero_le _⟩

/-- C3: set on an existing key succeeds regardless of the current count (in
particular at count = maxSize, since the admission gate only applies to new
keys), replaces that key's value and timestamp, and leaves the count
unchanged. -/
theorem set_existing_key_bypasses_gate (maxSize : Nat) (s : Store) (now : Int)
    (key : String) (v : Json) (r : CacheRecord)
    (hk : key ≠ "") (hr : s.findByPk key = some r) :
    CacheService.set maxSize s now key (some v) = .ok (s.updateItem key v now) ∧
    (s.updateItem key v now).count = s.count ∧
    (s.updateItem key v now).findByPk key =
      some { r with value := v, timestamp := now } := by
  refine ⟨?_, Store.count_updateItem s key v now,
    Store.findByPk_updateItem s key v now r hr⟩
  unfold CacheService.set CacheService.setWrap CacheService.setInner
  simp [hk, hr]

/-- Witness for C3: updating the sole key of a store already at capacity 1
succeeds and keeps the count at 1. -/
theorem set_existing_key_bypasses_gate_witness :
    CacheService.set 1 ⟨[⟨"a", Json.num 1, 0⟩]⟩ 7 "a" (some (Json.num 2)) =
      .ok (Store.updateItem ⟨[⟨"a", Json.num 1, 0⟩]⟩ "a" (Json.num 2) 7) ∧
    (Store.updateItem ⟨[⟨"a", Json.num 1, 0⟩]⟩ "a" (Json.num 2) 7).count =
      Store.count ⟨[⟨"a", Json.num 1, 0⟩]⟩ ∧
    (Store.updateItem ⟨[⟨"a", Json.num 1, 0⟩]⟩ "a" (Json.num 2) 7).findByPk "a" =
      some ⟨"a", Json.num 2, 7⟩ :=
  set_existing_key_bypasses_gate 1 ⟨[⟨"a", Json.num 1, 0⟩]⟩ 7 "a"
    (Json.num 2) ⟨"a", Json.num 1, 0⟩ (by decide) rfl

/-- C4: any successful set of a defined value on a non-empty key, followed by
get of the same key, returns exactly the stored value (deep equality holds
because the value is returned structurally unchanged, including null, 0,
false and the empty string, which pass the undefined-only validation). -/
theorem set_get_roundtrip (maxSize : Nat) (s s' : Store) (now : Int)
    (key : String) (v : Json) (hk : key ≠ "")
    (hset : CacheService.set maxSize s now key (some v) = .ok s') :
    CacheService.get s' key = .ok v := by
  rcases CacheService.set_ok_cases maxSize s now key (some v) s' hset with
    ⟨w, hw, _, hcases⟩
  cases hw
  rcases hcases with ⟨r, hr, rfl⟩ | ⟨hfind, _, rfl⟩
  · unfold CacheService.get
    rw [if_neg hk, Store.findByPk_updateItem s key v now r hr]
  · unfold CacheService.get
    rw [if_neg hk, Store.findByPk_createItem s key v now hfind]

/-- Witness for C4: round trips for the falsy values 0, false, the empty
string, and explicit null, and for a nested structure. -/
theorem set_get_roundtrip_witness :
    CacheService.get ⟨[⟨"k", Json.num 0, 3⟩]⟩ "k" = .ok (Json.num 0) ∧
    CacheService.get ⟨[⟨"k", Json.bool false, 3⟩]⟩ "k" = .ok (Json.bool false) ∧
    CacheService.get ⟨[⟨"k", Json.str "", 3⟩]⟩ "k" = .ok (Json.str "") ∧
    CacheService.get ⟨[⟨"k", Json.null, 3⟩]⟩ "k" = .ok Json.null ∧
    CacheService.get ⟨[⟨"k", Json.obj [("a", Json.arr [Json.num 1])], 3⟩]⟩ "k" =
      .ok (Json.obj [("a", Json.arr [Json.num 1])]) :=
  ⟨set_get_roundtrip 10 Store.empty _ 3 "k" (Json.num 0) (by decide) rfl,
   set_get_roundtrip 10 Store.empty _ 3 "k" (Json.bool false) (by decide) rfl,
   set_get_roundtrip 10 Store.empty _ 3 "k" (Json.str "") (by decide) rfl,
   set_get_roundtrip 10 Store.empty _ 3 "k" Json.null (by decide) rfl,
   set_get_roundtrip 10 Store.empty _ 3 "k"
     (Json.obj [("a", Json.arr [Json.num 1])]) (by decide) rfl⟩

/-- C5 counterexample: the claim asserts the not-found signal of get is
distinguishable from a stored value of null, but after a successful
set("k", null) the code's get returns the very same result (.ok Json.null,
the JS value null) for the present key "k" and for the absent key
"missing". -/
theorem get_notfound_counterexample :
    CacheService.set 10 Store.empty 0 "k" (some Json.null) =
      .ok ⟨[⟨"k", Json.null, 0⟩]⟩ ∧
    (Store.findByPk ⟨[⟨"k", Json.null, 0⟩]⟩ "k").isSome = true ∧
    Store.findByPk ⟨[⟨"k", Json.null, 0⟩]⟩ "missing" = none ∧
    CacheService.get ⟨[⟨"k", Json.null, 0⟩]⟩ "k" =
      CacheService.get ⟨[⟨"k", Json.null, 0⟩]⟩ "missing" :=
  ⟨rfl, rfl, rfl, rfl⟩

/-- C5 amended: for a non-empty key, get returns the deserialized stored
value when a record exists, and the JS value null when no record exists; the
not-found signal is null itself, so it is not distinguishable from a stored
value of null. -/
theorem get_returns_value_or_null (s : Store) (key : String) (hk : key ≠ "") :
    (∀ r, s.findByPk key = some r → CacheService.get s key = .ok r.value) ∧
    (s.findByPk key = none → CacheService.get s key = .ok Json.null) := by
  constructor
  · intro r hr
    unfold CacheService.get
    rw [if_neg hk, hr]
  · intro hr
    unfold CacheService.get
    rw [if_neg hk, hr]

/-- Witness for amended C5: a present key returns its stored value, an
absent key returns null. -/
theorem get_returns_value_or_null_witness :
    CacheService.get ⟨[⟨"k", Json.num 5, 0⟩]⟩ "k" = .ok (Json.num 5) ∧
    CacheService.get Store.empty "x" = .ok Json.null :=
  ⟨(get_returns_value_or_null ⟨[⟨"k", Json.num 5, 0⟩]⟩ "k" (by decide)).1
      ⟨"k", Json.num 5, 0⟩ rfl,
   (get_returns_value_or_null Store.empty "x" (by decide)).2 rfl⟩

/-- C8: delete on a non-empty key never fails; it returns true exactly when
a record existed (and was removed), returns false and leaves the store
untouched when no record existed, and in both cases has(key) afterwards
returns false. -/
theorem delete_spec (s : Store) (key : String) (hk : key ≠ "") :
    ∃ s' b, CacheService.delete s key = .ok (s', b) ∧
      (b = true ↔ (s.findByPk key).isSome = true) ∧
      (s.findByPk key = none → s' = s) ∧
      (∀ r ∈ s'.items, r ∈ s.items ∧ r.key ≠ key) ∧
      (∀ r ∈ s.items, r.key ≠ key → r ∈ s'.items) ∧
      CacheService.has s' key = .ok false := by
  refine ⟨(s.destroyByKey key).1, decide (0 < (s.destroyByKey key).2),
    ?_, ?_, ?_, ?_, ?_, ?_⟩
  · unfold CacheService.delete
    rw [if_neg hk]
  · rw [decide_eq_true_iff]
    simp [Store.destroyByKey, Store.findByPk, List.countP_pos_iff,
      List.find?_isSome]
  · intro h
    unfold Store.destroyByKey
    dsimp only
    have : s.items.filter (fun r => !(r.key == key)) = s.items := by
      rw [List.filter_eq_self]
      intro a ha
      have := List.find?_eq_none.mp h a ha
      simpa using this
    rw [this]
  · intro r hr
    have := List.mem_filter.mp hr
    refine ⟨this.1, ?_⟩
    have h2 := this.2
    simpa using h2
  · intro r hr hne
    apply List.mem_filter.mpr
    exact ⟨hr, by simpa using hne⟩
  · have hz : (s.destroyByKey key).1.countByKey key = 0 := by
      unfold Store.destroyByKey Store.countByKey
      dsimp only
      rw [List.countP_eq_zero]
      intro a ha
      have := (List.mem_filter.mp ha).2
      simp only [Bool.not_eq_eq_eq_not, Bool.not_true] at this
      simp [this]
    unfold CacheService.has
    rw [if_neg hk, hz]
    rfl

/-- Witness for C8: deleting the only key of a one-item store. -/
theorem delete_spec_witness :
    ∃ s' b, CacheService.delete ⟨[⟨"a", Json.num 1, 0⟩]⟩ "a" = .ok (s', b) ∧
      (b = true ↔ (Store.findByPk ⟨[⟨"a", Json.num 1, 0⟩]⟩ "a").isSome = true) ∧
      (Store.findByPk ⟨[⟨"a", Json.num 1, 0⟩]⟩ "a" = none →
        s' = ⟨[⟨"a", Json.num 1, 0⟩]⟩) ∧
      (∀ r ∈ s'.items, r ∈ Store.items ⟨[⟨"a", Json.num 1, 0⟩]⟩ ∧ r.key ≠ "a") ∧
      (∀ r ∈ Store.items ⟨[⟨"a", Json.num 1, 0⟩]⟩, r.key ≠ "a" → r ∈ s'.items) ∧
      CacheService.has s' "a" = .ok false :=
  delete_spec ⟨[⟨"a", Json.num 1, 0⟩]⟩ "a" (by decide)

/-- C10: after a successful set(key, null), has(key) reports true while
get(key) returns null, which is exactly the result get produces for a key
absent from the store (here the empty store), so has and get disagree about
existence. -/
theorem stored_null_vs_absent (maxSize : Nat) (s s' : Store) (now : Int)
    (key : String) (hk : key ≠ "")
    (hset : CacheService.set maxSize s now key (some Json.null) = .ok s') :
    CacheService.has s' key = .ok true ∧
    CacheService.get s' key = .ok Json.null ∧
    CacheService.get Store.empty key = .ok Json.null ∧
    CacheService.has Store.empty key = .ok false := by
  have hfind : ∃ r, s'.findByPk key = some r ∧ r.value = Json.null := by
    rcases CacheService.set_ok_cases _ _ _ _ _ _ hset with ⟨w, hw, _, hcases⟩
    cases hw
    rcases hcases with ⟨r, hr, rfl⟩ | ⟨hnone, _, rfl⟩
    · exact ⟨_, Store.findByPk_updateItem s key Json.null now r hr, rfl⟩
    · exact ⟨_, Store.findByPk_createItem s key Json.null now hnone, rfl⟩
  rcases hfind with ⟨r, hr, hv⟩
  refine ⟨?_, ?_, ?_, ?_⟩
  · unfold CacheService.has
    rw [if_neg hk]
    have hp := Store.countByKey_pos_of_findByPk s' key r hr
    simp [hp]
  · unfold CacheService.get
    rw [if_neg hk, hr]
    dsimp only
    rw [hv]
  · unfold CacheService.get
    rw [if_neg hk]
    rfl
  · unfold CacheService.has
    rw [if_neg hk]
    rfl

/-- Witness for C10: storing null under "k" in the empty store. -/
theorem stored_null_vs_absent_witness :
    CacheService.has ⟨[⟨"k", Json.null, 4⟩]⟩ "k" = .ok true ∧
    CacheService.get ⟨[⟨"k", Json.null, 4⟩]⟩ "k" = .ok Json.null ∧
    CacheService.get Store.empty "k" = .ok Json.null ∧
    CacheService.has Store.empty "k" = .ok false :=
  stored_null_vs_absent 10 Store.empty ⟨[⟨"k", Json.null, 4⟩]⟩ 4 "k"
    (by decide) rfl

/-- C6: cleanupOldEntries with a non-positive age fails with the validation
message (wrapped by the catch block) and removes nothing; with a positive
age it removes exactly the records whose timestamp is strictly earlier than
now - maxAgeMinutes * 60000 ms, keeps records exactly at the cutoff, keeps
every survivor unchanged (survivors are original records), and returns the
number of records removed. -/
theorem cleanup_old_entries_spec (s : Store) (now maxAgeMinutes : Int) :
    (maxAgeMinutes ≤ 0 →
      CacheService.cleanupOldEntries s now maxAgeMinutes =
        .error "Failed to cleanup old entries: Max age must be positive") ∧
    (0 < maxAgeMinutes →
      ∃ s' n, CacheService.cleanupOldEntries s now maxAgeMinutes = .ok (s', n) ∧
        (∀ r ∈ s.items, r.timestamp < now - maxAgeMinutes * 60000 →
          r ∉ s'.items) ∧
        (∀ r ∈ s.items, now - maxAgeMinutes * 60000 ≤ r.timestamp →
          r ∈ s'.items) ∧
        (∀ r ∈ s'.items,
          r ∈ s.items ∧ now - maxAgeMinutes * 60000 ≤ r.timestamp) ∧
        n + s'.count = s.count) := by
  constructor
  · intro hm
    unfold CacheService.cleanupOldEntries
    rw [if_pos hm]
    rfl
  · intro h0
    have hm : ¬ maxAgeMinutes ≤ 0 := not_le.mpr h0
    unfold CacheService.cleanupOldEntries
    rw [if_neg hm]
    refine ⟨(s.destroyOlderThan (now - maxAgeMinutes * 60000)).1,
      (s.destroyOlderThan (now - maxAgeMinutes * 60000)).2, rfl, ?_, ?_, ?_, ?_⟩
    · intro r hr hlt hmem
      have hcond := (List.mem_filter.mp hmem).2
      simp only [Bool.not_eq_eq_eq_not, Bool.not_true, decide_eq_false_iff_not] at hcond
      exact hcond hlt
    · intro r hr hle
      refine List.mem_filter.mpr ⟨hr, ?_⟩
      simp only [Bool.not_eq_eq_eq_not, Bool.not_true, decide_eq_false_iff_not]
      omega
    · intro r hr
      have h := List.mem_filter.mp hr
      refine ⟨h.1, ?_⟩
      have hcond := h.2
      simp only [Bool.not_eq_eq_eq_not, Bool.not_true, decide_eq_false_iff_not] at hcond
      omega
    · exact countP_add_length_filter_not
        (fun r => decide (r.timestamp < now - maxAgeMinutes * 60000)) s.items

/-- Witness for C6: non-positive age fails; with age 2 minutes at
now = 180000 ms the cutoff is 60000 ms, the record at timestamp 0 is
removed, and the record exactly at the cutoff is retained. -/
theorem cleanup_old_entries_spec_witness :
    CacheService.cleanupOldEntries
      ⟨[⟨"a", Json.num 1, 0⟩, ⟨"b", Json.num 2, 60000⟩]⟩ 180000 0 =
        .error "Failed to cleanup old entries: Max age must be positive" ∧
    (∃ s' n,
      CacheService.cleanupOldEntries
        ⟨[⟨"a", Json.num 1, 0⟩, ⟨"b", Json.num 2, 60000⟩]⟩ 180000 2 =
          .ok (s', n) ∧
      (∀ r ∈ Store.items ⟨[⟨"a", Json.num 1, 0⟩, ⟨"b", Json.num 2, 60000⟩]⟩,
        r.timestamp < 180000 - 2 * 60000 → r ∉ s'.items) ∧
      (∀ r ∈ Store.items ⟨[⟨"a", Json.num 1, 0⟩, ⟨"b", Json.num 2, 60000⟩]⟩,
        180000 - 2 * 60000 ≤ r.timestamp → r ∈ s'.items) ∧
      (∀ r ∈ s'.items,
        r ∈ Store.items ⟨[⟨"a", Json.num 1, 0⟩, ⟨"b", Json.num 2, 60000⟩]⟩ ∧
          180000 - 2 * 60000 ≤ r.timestamp) ∧
      n + s'.count = Store.count ⟨[⟨"a", Json.num 1, 0⟩, ⟨"b", Json.num 2, 60000⟩]⟩) :=
  ⟨(cleanup_old_entries_spec
      ⟨[⟨"a", Json.num 1, 0⟩, ⟨"b", Json.num 2, 60000⟩]⟩ 180000 0).1 (by decide),
   (cleanup_old_entries_spec
      ⟨[⟨"a", Json.num 1, 0⟩, ⟨"b", Json.num 2, 60000⟩]⟩ 180000 2).2 (by decide)⟩

/-- C7 counterexample: the claim says validation failures are surfaced as a
ValidationError distinguishable from other failures, but in the code the
empty-key validation error thrown inside set (and the non-positive-age error
inside cleanupOldEntries) is caught by the operation's own catch block and
rewrapped with the same generic operation-failure prefix used for underlying
store failures; only "Cache is full" passes through unwrapped. -/
theorem validation_wrapped_counterexample :
    CacheService.set 10 Store.empty 0 "" (some (Json.num 1)) =
      .error "Failed to set cache value: Key is required" ∧
    CacheService.setWrap (.error "connection lost") =
      .error "Failed to set cache value: connection lost" ∧
    CacheService.cleanupOldEntries Store.empty 0 0 =
      .error "Failed to cleanup old entries: Max age must be positive" ∧
    "Failed to set cache value: Key is required" =
      "Failed to set cache value: " ++ "Key is required" :=
  ⟨rfl, rfl, rfl, rfl⟩

/-- C7 amended: validation failures in set and cleanupOldEntries are thrown
with their validation messages but reach the caller wrapped in the same
generic failure prefix that wraps underlying store failures (the original
message is preserved as the suffix, so the cause is carried), while the
capacity error "Cache is full" passes through set's catch block unwrapped;
callers can therefore distinguish the capacity error, but validation
failures are distinguishable from wrapped store failures only by message
text, not by kind. -/
theorem error_wrapping_spec (maxSize : Nat) (s : Store) (now : Int)
    (key : String) (v : Json) (msg : String) (maxAge : Int)
    (hk : key ≠ "") (hmsg : msg ≠ "Cache is full") (hm : maxAge ≤ 0) :
    CacheService.set maxSize s now "" (some v) =
      .error ("Failed to set cache value: " ++ "Key is required") ∧
    CacheService.set maxSize s now key none =
      .error ("Failed to set cache value: " ++ "Value is required") ∧
    CacheService.setWrap (.error msg) =
      .error ("Failed to set cache value: " ++ msg) ∧
    CacheService.setWrap (.error "Cache is full") = .error "Cache is full" ∧
    CacheService.cleanupOldEntries s now maxAge =
      .error ("Failed to cleanup old entries: " ++ "Max age must be positive") := by
  refine ⟨rfl, ?_, ?_, rfl, ?_⟩
  · unfold CacheService.set CacheService.setWrap CacheService.setInner
    rw [if_neg hk]
    rfl
  · dsimp only [CacheService.setWrap]
    rw [if_neg hmsg]
  · unfold CacheService.cleanupOldEntries
    rw [if_pos hm]

/-- Witness for amended C7 at concrete inputs. -/
theorem error_wrapping_spec_witness :
    CacheService.set 10 Store.empty 0 "" (some (Json.num 1)) =
      .error ("Failed to set cache value: " ++ "Key is required") ∧
    CacheService.set 10 Store.empty 0 "k" none =
      .error ("Failed to set cache value: " ++ "Value is required") ∧
    CacheService.setWrap (.error "disk error") =
      .error ("Failed to set cache value: " ++ "disk error") ∧
    CacheService.setWrap (.error "Cache is full") = .error "Cache is full" ∧
    CacheService.cleanupOldEntries Store.empty 0 0 =
      .error ("Failed to cleanup old entries: " ++ "Max age must be positive") :=
  error_wrapping_spec 10 Store.empty 0 "k" (Json.num 1) "disk error" 0
    (by decide) (by decide) (by decide)

/-- C9: getStats returns the current count, the minimum and maximum stored
timestamps (an explicit none when the store is empty), the configured
capacity, and max 0 (maxSize - totalItems); remainingSpace is never
negative, and it is 0 whenever the store holds more than maxSize items. -/
theorem getStats_spec (maxSize : Nat) (s : Store) :
    CacheService.getStats maxSize s =
      { totalItems := s.count
        oldestItemTimestamp := (s.items.map (fun r => r.timestamp)).min?
        newestItemTimestamp := (s.items.map (fun r => r.timestamp)).max?
        maxSize := maxSize
        remainingSpace := max 0 ((maxSize : Int) - (s.count : Int)) } ∧
    0 ≤ (CacheService.getStats maxSize s).remainingSpace ∧
    (s.items = [] →
      (CacheService.getStats maxSize s).oldestItemTimestamp = none ∧
      (CacheService.getStats maxSize s).newestItemTimestamp = none) ∧
    (maxSize < s.count →
      (CacheService.getStats maxSize s).remainingSpace = 0) := by
  have h1 : CacheService.getStats maxSize s =
      { totalItems := s.count
        oldestItemTimestamp := (s.items.map (fun r => r.timestamp)).min?
        newestItemTimestamp := (s.items.map (fun r => r.timestamp)).max?
        maxSize := maxSize
        remainingSpace := max 0 ((maxSize : Int) - (s.count : Int)) } := by
    unfold CacheService.getStats
    rw [Store.findOneAsc_timestamp, Store.findOneDesc_timestamp]
  refine ⟨h1, ?_, ?_, ?_⟩
  · rw [h1]
    exact le_max_left 0 _
  · intro he
    rw [h1]
    simp [he]
  · intro hlt
    rw [h1]
    have hle : (maxSize : Int) - (s.count : Int) ≤ 0 := by omega
    exact max_eq_left hle

/-- Witness for C9: a store of two items with capacity 1 still reports a
remainingSpace of 0, not a negative number. -/
theorem getStats_spec_witness :
    0 ≤ (CacheService.getStats 1
      ⟨[⟨"a", Json.num 1, 5⟩, ⟨"b", Json.num 2, 3⟩]⟩).remainingSpace ∧
    (CacheService.getStats 1
      ⟨[⟨"a", Json.num 1, 5⟩, ⟨"b", Json.num 2, 3⟩]⟩).remainingSpace = 0 :=
  ⟨(getStats_spec 1 ⟨[⟨"a", Json.num 1, 5⟩, ⟨"b", Json.num 2, 3⟩]⟩).2.1,
   (getStats_spec 1 ⟨[⟨"a", Json.num 1, 5⟩, ⟨"b", Json.num 2, 3⟩]⟩).2.2.2
     (by decide)⟩
